import Mathlib

/-!
Shallow embedding of the bus-tracking controller
(src/server/controllers/busController.ts) and proofs about it.

Conventions of the embedding:
- Mongo ObjectIds are modelled as natural numbers; the source compares
  them via toString equality, which is equality of the ids.
- JavaScript numbers are modelled as rationals; Math.round is modelled
  as jsRound (floor of x + 1/2, which is what Math.round computes on
  finite values).
- A GeoJSON point stores its coordinates array as the pair
  (coord0, coord1) = (coordinates[0], coordinates[1]) = (lng, lat).
- Absent / undefined values are Option.none; JS truthiness of request
  fields is modelled explicitly where the source relies on it.
- The routing oracle (OSRMService, whose source is outside the
  controller) is an input: each of the two calls of an estimation pass
  either resolves with a number or rejects.  A rejection of either call
  makes the awaited Promise.all reject, which the controller's
  try/catch turns into the failure response.
-/

namespace BusTracking

/-- JavaScript Math.round on finite values: floor (x + 1/2), written with
the computable Rat.floor. -/
def jsRound (q : ℚ) : Int := Rat.floor (q + 1/2)

/-- A GeoJSON Point: coord0 = coordinates[0] (longitude),
coord1 = coordinates[1] (latitude), as stored by the source. -/
structure GeoPoint where
  coord0 : ℚ
  coord1 : ℚ
deriving DecidableEq

/-- The embedded route subdocument of a bus: ordered station ids plus the
aggregate estimatedTime field. -/
structure RouteInfo where
  stations : List Nat
  estimatedTime : Int
deriving DecidableEq

/-- The schedule subdocument of a bus. -/
structure Schedule where
  departureTime : String
  arrivalTime : String
deriving DecidableEq

/-- The trackingData subdocument read by getBusLocations. -/
structure TrackingMeta where
  speed : ℚ
  heading : ℚ
deriving DecidableEq

/-- The persisted bus document, with the fields the controller touches. -/
structure Bus where
  busNumber : String
  routeNumber : String
  capacity : Nat
  deviceId : String
  route : Option RouteInfo
  schedule : Schedule
  currentStationId : Option Nat
  currentLocation : GeoPoint
  lastUpdateTime : Int
  status : String
  isOnRoute : Bool
  currentPassengerCount : Nat
  trackingData : Option TrackingMeta
deriving DecidableEq

/-- A station document as read back by Station.findById(...).lean(). -/
structure Station where
  sid : Nat
  location : Option GeoPoint
deriving DecidableEq

/-- Modelled from the spec: one call of the routing oracle (OSRMService,
whose module is not part of the embedded source).  Per the spec the call
is fallible: it either resolves with a number or rejects. -/
inductive OracleResult where
  | success (value : ℚ)
  | failure
deriving DecidableEq

/-- Modelled from the spec: the outcomes of the two oracle calls issued by
one estimation pass (OSRMService.calculateETA returns durationSeconds,
OSRMService.calculateDistance returns distanceMeters). -/
structure Oracle where
  calculateETA : OracleResult
  calculateDistance : OracleResult
deriving DecidableEq

/-- The position report body of updateBusLocation: lat, lng, speed, heading. -/
structure LocationReq where
  lat : ℚ
  lng : ℚ
  speed : ℚ
  heading : ℚ
deriving DecidableEq

/-- The trackingData object built and returned by updateBusLocation. -/
structure TrackingData where
  busId : Nat
  locationLat : ℚ
  locationLng : ℚ
  speed : ℚ
  heading : ℚ
  status : String
  currentStation : Option Nat
  nextStation : Option Nat
  eta : Option Int
  distanceToNext : Option Int
deriving DecidableEq

/-- The response of updateBusLocation: 404 bus-not-found, the 400 catch
branch, or 200 with the tracking data. -/
inductive LocationUpdateOutcome where
  | notFound
  | failed
  | success (data : TrackingData)
deriving DecidableEq

/-- Result of one updateBusLocation call: the HTTP outcome, the bus record
as persisted after the call (unchanged when nothing was saved), and how
many oracle calls were issued. -/
structure LocationUpdateResult where
  outcome : LocationUpdateOutcome
  savedBus : Option Bus
  oracleCalls : Nat
deriving DecidableEq

/-- Embeds lines 217-219 of the source: the index of the bus's current
station in its route, computed with findIndex over route.stations
comparing against currentStationId, with undefined route or a
never-matching predicate both yielding -1. -/
def currentStationIndex (bus : Bus) : Int :=
  match bus.route with
  | none => -1
  | some r =>
    match bus.currentStationId with
    | none => -1
    | some cid =>
      match r.stations.findIdx? (fun s => s == cid) with
      | none => -1
      | some i => (i : Int)

/-- Embeds line 220 of the source: the next station id is
route.stations[currentStationIndex + 1] when currentStationIndex >= 0,
undefined otherwise (also undefined when the lookup runs past the end). -/
def nextStationId (bus : Bus) : Option Nat :=
  if currentStationIndex bus ≥ 0 then
    match bus.route with
    | none => none
    | some r => r.stations[(currentStationIndex bus).toNat + 1]?
  else none

/-- Embeds updateBusLocation (source lines 206-281).  The database row for
the requested id, the station collection and the oracle outcomes are
inputs; the result carries the response, the persisted bus state and the
number of oracle calls issued. -/
def updateBusLocation (busId : Nat) (busDb : Option Bus)
    (stationDb : Nat → Option Station) (req : LocationReq)
    (oracle : Oracle) (now : Int) : LocationUpdateResult :=
  match busDb with
  | none => { outcome := .notFound, savedBus := none, oracleCalls := 0 }
  | some bus =>
    let trackingData : TrackingData :=
      { busId := busId
        locationLat := req.lat
        locationLng := req.lng
        speed := req.speed
        heading := req.heading
        status := bus.status
        currentStation := bus.currentStationId
        nextStation := none
        eta := none
        distanceToNext := none }
    match nextStationId bus with
    | none => { outcome := .success trackingData, savedBus := some bus, oracleCalls := 0 }
    | some nsid =>
      match stationDb nsid with
      | none => { outcome := .success trackingData, savedBus := some bus, oracleCalls := 0 }
      | some stationDoc =>
        match stationDoc.location with
        | none => { outcome := .success trackingData, savedBus := some bus, oracleCalls := 0 }
        | some _ =>
          match oracle.calculateETA, oracle.calculateDistance with
          | .success eta, .success dist =>
            let savedBus : Bus :=
              { bus with
                currentLocation := { coord0 := req.lng, coord1 := req.lat }
                lastUpdateTime := now
                route := bus.route.map fun r =>
                  { r with estimatedTime := jsRound (eta / 60) } }
            { outcome := .success
                { trackingData with
                  nextStation := some nsid
                  eta := some (jsRound (eta / 60))
                  distanceToNext := some (jsRound dist) }
              savedBus := some savedBus
              oracleCalls := 2 }
          | _, _ => { outcome := .failed, savedBus := some bus, oracleCalls := 2 }

/-- Embeds line 125 of the source: the allow-list for station admins. -/
def allowedFields : List String := ["status", "schedule", "route.estimatedTime"]

/-- JavaScript string startsWith, modelled on the character lists of the
two strings. -/
def strStartsWith (s p : String) : Bool := p.data.isPrefixOf s.data

/-- Embeds the key predicate of lines 126-131: a key survives when it is in
the allow-list or starts with the schedule. or route. prefix. -/
def isAllowedKey (key : String) : Bool :=
  allowedFields.contains key || strStartsWith key "schedule." || strStartsWith key "route."

/-- Embeds lines 126-133 of the source: keep exactly the keys passing
isAllowedKey, dropping the rest silently. -/
def filterUpdateData {α : Type} (updateData : List (String × α)) : List (String × α) :=
  updateData.filter fun kv => isAllowedKey kv.1

/-- The response of updateBus: the two 403 denials, the 404, or the update
applied with the surviving field set. -/
inductive UpdateBusOutcome (α : Type) where
  | noStationForAdmin
  | busNotFound
  | notAuthorizedForBus
  | updated (applied : List (String × α))
deriving DecidableEq

/-- The HTTP status the source sends for each updateBus outcome. -/
def updateBusStatusCode {α : Type} : UpdateBusOutcome α → Nat
  | .noStationForAdmin => 403
  | .busNotFound => 404
  | .notAuthorizedForBus => 403
  | .updated _ => 200

/-- Result of one updateBus call: the outcome together with the persisted
bus state after the call. -/
structure UpdateBusResult (α : Type) where
  outcome : UpdateBusOutcome α
  finalBus : Option Bus
deriving DecidableEq

/-- Embeds updateBus (source lines 78-153).  The write performed by
findByIdAndUpdate is abstracted as applyUpdate (a parameter: the store's
semantics live outside the controller); updateData is the request body as
a key/value list.  Station admins are checked for a scoping station, bus
existence, route membership of their station, then their fields are
filtered; every other role goes straight to the write with the body
unchanged. -/
def updateBus {α : Type} (applyUpdate : Bus → List (String × α) → Bus)
    (role : String) (userStationId : Option Nat) (busDb : Option Bus)
    (updateData : List (String × α)) : UpdateBusResult α :=
  if role == "STATION_ADMIN" then
    match userStationId with
    | none => { outcome := .noStationForAdmin, finalBus := busDb }
    | some sid =>
      match busDb with
      | none => { outcome := .busNotFound, finalBus := none }
      | some bus =>
        match bus.route with
        | none => { outcome := .notAuthorizedForBus, finalBus := some bus }
        | some r =>
          if r.stations.contains sid then
            let applied := filterUpdateData updateData
            { outcome := .updated applied, finalBus := some (applyUpdate bus applied) }
          else
            { outcome := .notAuthorizedForBus, finalBus := some bus }
  else
    match busDb with
    | none => { outcome := .busNotFound, finalBus := none }
    | some bus =>
      { outcome := .updated updateData, finalBus := some (applyUpdate bus updateData) }

/-- JS truthiness of an optional string request field: absent and the
empty string are falsy. -/
def truthyStr (o : Option String) : Bool :=
  match o with
  | none => false
  | some s => !(s == "")

/-- JS truthiness of an optional numeric request field: absent and 0 are
falsy. -/
def truthyNat (o : Option Nat) : Bool :=
  match o with
  | none => false
  | some n => !(n == 0)

/-- Embeds the JS expression (status or default) of line 57: the default
is used when the field is absent or the empty string. -/
def jsOrStr (o : Option String) (d : String) : String :=
  match o with
  | none => d
  | some s => if s == "" then d else s

/-- The request body of createBus, every field optional. -/
structure CreateBusBody where
  busNumber : Option String
  routeNumber : Option String
  capacity : Option Nat
  deviceId : Option String
  route : Option RouteInfo
  schedule : Option Schedule
  status : Option String
deriving DecidableEq

/-- The response of createBus: the 400 missing-fields rejection, or 201
with the created bus. -/
inductive CreateBusOutcome where
  | missingRequiredFields
  | created (bus : Bus)
deriving DecidableEq

/-- Embeds createBus (source lines 20-76, the validation and document
construction; the duplicate-key branch is a store outcome outside the
controller).  nowIso is the ISO timestamp used for the default schedule,
now the creation timestamp. -/
def createBus (body : CreateBusBody) (nowIso : String) (now : Int) : CreateBusOutcome :=
  if !truthyStr body.busNumber || !truthyStr body.routeNumber
      || !truthyNat body.capacity || !truthyStr body.deviceId then
    .missingRequiredFields
  else
    .created
      { busNumber := body.busNumber.getD ""
        routeNumber := body.routeNumber.getD ""
        capacity := body.capacity.getD 0
        deviceId := body.deviceId.getD ""
        route := some (body.route.getD { stations := [], estimatedTime := 0 })
        schedule := body.schedule.getD { departureTime := nowIso, arrivalTime := nowIso }
        currentStationId := none
        currentLocation := { coord0 := 0, coord1 := 0 }
        lastUpdateTime := now
        status := jsOrStr body.status "INACTIVE"
        isOnRoute := false
        currentPassengerCount := 0
        trackingData := none }

/-- One element of the getBusLocations response list. -/
structure BusLocationEntry where
  deviceId : String
  busNumber : String
  routeNumber : String
  locationLat : ℚ
  locationLng : ℚ
  speed : ℚ
  heading : ℚ
  status : String
  lastUpdate : Int
deriving DecidableEq

/-- Embeds lines 423-435 of the source: the per-bus mapping of
getBusLocations, reconstructing lat from coordinates[1] and lng from
coordinates[0]. -/
def busLocationEntry (bus : Bus) : BusLocationEntry :=
  { deviceId := bus.deviceId
    busNumber := bus.busNumber
    routeNumber := bus.routeNumber
    locationLat := bus.currentLocation.coord1
    locationLng := bus.currentLocation.coord0
    speed := (bus.trackingData.map TrackingMeta.speed).getD 0
    heading := (bus.trackingData.map TrackingMeta.heading).getD 0
    status := bus.status.toLower
    lastUpdate := bus.lastUpdateTime }

/-- Embeds getBusLocations (source lines 410-442): none is the 403 when
the caller has no station; otherwise the buses whose route.stations
contain the station and whose status is ACTIVE or INACTIVE, mapped
through busLocationEntry. -/
def getBusLocations (userStationId : Option Nat) (buses : List Bus) :
    Option (List BusLocationEntry) :=
  match userStationId with
  | none => none
  | some sid =>
    some (((buses.filter fun b =>
      (match b.route with
       | none => false
       | some r => r.stations.contains sid)
      && (b.status == "ACTIVE" || b.status == "INACTIVE"))).map busLocationEntry)

/-- Embeds lines 303-306 of the source: the currentLocation object built
by getBusTrackingInfo, as the pair (lat, lng) =
(coordinates[1], coordinates[0]). -/
def getBusTrackingInfoLocation (bus : Bus) : ℚ × ℚ :=
  (bus.currentLocation.coord1, bus.currentLocation.coord0)

/-! Concrete fixtures used to exercise the embedded operations. -/

/-- A default schedule for fixtures. -/
def fixSchedule : Schedule := { departureTime := "06:00", arrivalTime := "07:00" }

/-- A bus in the middle of route [1, 2, 3]: current station 2, so the next
station is 3. -/
def busMidRoute : Bus :=
  { busNumber := "B12"
    routeNumber := "R1"
    capacity := 40
    deviceId := "dev-12"
    route := some { stations := [1, 2, 3], estimatedTime := 15 }
    schedule := fixSchedule
    currentStationId := some 2
    currentLocation := { coord0 := 0, coord1 := 0 }
    lastUpdateTime := 5
    status := "ACTIVE"
    isOnRoute := true
    currentPassengerCount := 10
    trackingData := none }

/-- A bus at the last stop of route [1, 2, 3]: current station 3, so there
is no next station. -/
def busAtLastStop : Bus :=
  { busMidRoute with currentStationId := some 3 }

/-- A station collection where station 3 has a location. -/
def stationDbA : Nat → Option Station :=
  fun n => if n == 3 then some { sid := 3, location := some { coord0 := 2, coord1 := 0 } } else none

/-- A well-formed position report. -/
def reqOk : LocationReq := { lat := 1, lng := 2, speed := 30, heading := 90 }

/-- A position report with out-of-range coordinates. -/
def reqBad : LocationReq := { lat := 1000, lng := 2000, speed := 30, heading := 90 }

/-- An oracle where both calls succeed: 300 seconds, 1500 meters. -/
def oracleOk : Oracle := { calculateETA := .success 300, calculateDistance := .success 1500 }

/-- An oracle where the duration call fails and the distance call succeeds
with 1500 meters. -/
def oracleEtaDown : Oracle := { calculateETA := .failure, calculateDistance := .success 1500 }

/-- C4: a station admin whose station is not among the stops of the target
bus's route gets the authorization denial, the bus is unchanged, and the
denial outcome is distinct from the not-found outcome (403 vs 404). -/
theorem scopedActorDenied {α : Type} (applyUpdate : Bus → List (String × α) → Bus)
    (sid : Nat) (bus : Bus) (updateData : List (String × α))
    (hscope : ∀ r, bus.route = some r → sid ∉ r.stations) :
    updateBus applyUpdate "STATION_ADMIN" (some sid) (some bus) updateData =
        { outcome := .notAuthorizedForBus, finalBus := some bus } ∧
      (UpdateBusOutcome.notAuthorizedForBus : UpdateBusOutcome α) ≠ .busNotFound ∧
      updateBusStatusCode (UpdateBusOutcome.notAuthorizedForBus : UpdateBusOutcome α) ≠
        updateBusStatusCode (UpdateBusOutcome.busNotFound : UpdateBusOutcome α) := by
  refine ⟨?_, by simp, by simp [updateBusStatusCode]⟩
  unfold updateBus
  cases hr : bus.route with
  | none => simp [hr]
  | some r => simp [hr, hscope r hr]

/-- C4 witness: a station admin scoped to station 9, which is not on
busMidRoute's route [1, 2, 3], is denied with the bus unchanged. -/
theorem scopedActorDenied_witness :
    (∀ r, busMidRoute.route = some r → 9 ∉ r.stations) ∧
    updateBus (fun b _ => b) "STATION_ADMIN" (some 9) (some busMidRoute)
        [("status", "ACTIVE")] =
      { outcome := .notAuthorizedForBus, finalBus := some busMidRoute } :=
  ⟨by decide,
   (scopedActorDenied (fun b _ => b) 9 busMidRoute [("status", "ACTIVE")] (by decide)).1⟩

/-- C5: an eligible station admin's proposed fields are filtered so that the
applied set contains exactly the entries whose key equals status, schedule
or route.estimatedTime or starts with the schedule. or route. prefix, the
rest being dropped without error, and the update proceeds with the
surviving set (whatever it is, even empty). -/
theorem scopedActorFilterExact {α : Type} (applyUpdate : Bus → List (String × α) → Bus)
    (sid : Nat) (bus : Bus) (r : RouteInfo) (updateData : List (String × α))
    (hroute : bus.route = some r) (hmem : sid ∈ r.stations) :
    updateBus applyUpdate "STATION_ADMIN" (some sid) (some bus) updateData =
        { outcome := .updated (filterUpdateData updateData),
          finalBus := some (applyUpdate bus (filterUpdateData updateData)) } ∧
      ∀ kv : String × α, kv ∈ filterUpdateData updateData ↔
        kv ∈ updateData ∧
          (kv.1 = "status" ∨ kv.1 = "schedule" ∨ kv.1 = "route.estimatedTime" ∨
            strStartsWith kv.1 "schedule." = true ∨ strStartsWith kv.1 "route." = true) := by
  constructor
  · unfold updateBus
    simp [hroute, hmem]
  · intro kv
    simp only [filterUpdateData, List.mem_filter, isAllowedKey, allowedFields,
      Bool.or_eq_true, List.elem_iff, List.mem_cons, List.not_mem_nil, or_false]
    tauto

/-- C5 witness: an eligible station admin (station 2 is on the route)
proposing status, a schedule path, a route path and two disallowed keys
sees exactly the first three applied. -/
theorem scopedActorFilterExact_witness :
    busMidRoute.route = some { stations := [1, 2, 3], estimatedTime := 15 } ∧
    updateBus (fun b _ => b) "STATION_ADMIN" (some 2) (some busMidRoute)
        [("status", "ACTIVE"), ("schedule.departureTime", "06:30"),
         ("route.estimatedTime", "20"), ("busNumber", "X"), ("capacity", "99")] =
      { outcome := .updated
          [("status", "ACTIVE"), ("schedule.departureTime", "06:30"),
           ("route.estimatedTime", "20")],
        finalBus := some busMidRoute } :=
  ⟨rfl,
   by
    have h := (scopedActorFilterExact (fun b _ => b) 2 busMidRoute
      { stations := [1, 2, 3], estimatedTime := 15 }
      [("status", "ACTIVE"), ("schedule.departureTime", "06:30"),
       ("route.estimatedTime", "20"), ("busNumber", "X"), ("capacity", "99")]
      rfl (by decide)).1
    rw [h]
    decide⟩

/-- C8: any actor whose role is not STATION_ADMIN bypasses the eligibility
check and the allow-list entirely: the proposed fields reach the update
unchanged. -/
theorem nonStationAdminPassthrough {α : Type} (applyUpdate : Bus → List (String × α) → Bus)
    (role : String) (userStationId : Option Nat) (bus : Bus)
    (updateData : List (String × α))
    (hrole : (role == "STATION_ADMIN") = false) :
    updateBus applyUpdate role userStationId (some bus) updateData =
      { outcome := .updated updateData, finalBus := some (applyUpdate bus updateData) } := by
  unfold updateBus
  simp [hrole]

/-- C8 witness: a MAIN_ADMIN proposing a disallowed key (busNumber) has it
applied unchanged. -/
theorem nonStationAdminPassthrough_witness :
    (("MAIN_ADMIN" == "STATION_ADMIN") = false) ∧
    updateBus (fun b _ => b) "MAIN_ADMIN" none (some busMidRoute)
        [("busNumber", "X"), ("status", "ACTIVE")] =
      { outcome := .updated [("busNumber", "X"), ("status", "ACTIVE")],
        finalBus := some busMidRoute } :=
  ⟨by decide,
   nonStationAdminPassthrough (fun b _ => b) "MAIN_ADMIN" none busMidRoute
     [("busNumber", "X"), ("status", "ACTIVE")] (by decide)⟩

/-- C10: a createBus request passing the required-field validation creates a
bus whose route defaults to the empty station list with estimatedTime 0
when absent, whose status defaults to INACTIVE when absent, and whose
currentLocation is always coordinates [0, 0], currentPassengerCount 0 and
isOnRoute false, whatever the body. -/
theorem createBusDefaults (body : CreateBusBody) (nowIso : String) (now : Int)
    (h1 : truthyStr body.busNumber = true) (h2 : truthyStr body.routeNumber = true)
    (h3 : truthyNat body.capacity = true) (h4 : truthyStr body.deviceId = true) :
    ∃ b, createBus body nowIso now = .created b ∧
      (body.route = none → b.route = some { stations := [], estimatedTime := 0 }) ∧
      (body.status = none → b.status = "INACTIVE") ∧
      b.currentLocation = { coord0 := 0, coord1 := 0 } ∧
      b.currentPassengerCount = 0 ∧
      b.isOnRoute = false := by
  unfold createBus
  rw [h1, h2, h3, h4]
  simp only [Bool.not_true, Bool.or_self, Bool.false_eq_true, if_false]
  refine ⟨_, rfl, ?_, ?_, rfl, rfl, rfl⟩
  · intro h
    simp [h]
  · intro h
    simp [h, jsOrStr]

/-- C10 witness: a body supplying only the four required fields yields a bus
with the default route, INACTIVE status, location [0, 0], zero passengers
and isOnRoute false. -/
theorem createBusDefaults_witness :
    truthyStr (some "B9") = true ∧ truthyNat (some 40) = true ∧
    ∃ b, createBus
        { busNumber := some "B9", routeNumber := some "R9", capacity := some 40,
          deviceId := some "d9", route := none, schedule := none, status := none }
        "2026-01-01" 0 = .created b ∧
      ((none : Option RouteInfo) = none → b.route = some { stations := [], estimatedTime := 0 }) ∧
      ((none : Option String) = none → b.status = "INACTIVE") ∧
      b.currentLocation = { coord0 := 0, coord1 := 0 } ∧
      b.currentPassengerCount = 0 ∧
      b.isOnRoute = false :=
  ⟨by decide, by decide,
   createBusDefaults
     { busNumber := some "B9", routeNumber := some "R9", capacity := some 40,
       deviceId := some "d9", route := none, schedule := none, status := none }
     "2026-01-01" 0 (by decide) (by decide) (by decide) (by decide)⟩

/-! Helper lemmas. -/

theorem jsRound_eq_floor (q : ℚ) : jsRound q = ⌊q + 1/2⌋ := by
  rw [jsRound, Rat.floor_def' (q + 1/2), ← Rat.floor_def]

theorem currentStationIndex_of_no_stop (bus : Bus) (h : bus.currentStationId = none) :
    currentStationIndex bus = -1 := by
  unfold currentStationIndex
  cases hr : bus.route with
  | none => rfl
  | some r => rw [h]

theorem nextStationId_of_neg (bus : Bus) (h : currentStationIndex bus = -1) :
    nextStationId bus = none := by
  unfold nextStationId
  rw [h]
  norm_num

theorem nextStationId_of_last (bus : Bus) (r : RouteInfo)
    (hr : bus.route = some r)
    (h : currentStationIndex bus = (r.stations.length : Int) - 1) :
    nextStationId bus = none := by
  unfold nextStationId
  rw [h, hr]
  rcases Nat.eq_zero_or_pos r.stations.length with h0 | hpos
  · rw [h0]
    norm_num
  · have hge : ((r.stations.length : Int) - 1) ≥ 0 := by omega
    rw [if_pos hge]
    have ht : ((r.stations.length : Int) - 1).toNat + 1 = r.stations.length := by omega
    rw [ht]
    exact List.getElem?_eq_none (le_refl _)

/-- C3: when the current-stop reference is absent, stale (index -1) or the
last stop, updateBusLocation succeeds with a snapshot whose nextStation,
eta and distanceToNext are all null, issues no oracle call, and leaves the
bus record untouched. -/
theorem terminalOrUnknownStop (busId : Nat) (bus : Bus)
    (stationDb : Nat → Option Station) (req : LocationReq) (oracle : Oracle)
    (now : Int)
    (h : bus.currentStationId = none ∨ currentStationIndex bus = -1 ∨
        ∃ r, bus.route = some r ∧
          currentStationIndex bus = (r.stations.length : Int) - 1) :
    ∃ td, updateBusLocation busId (some bus) stationDb req oracle now =
        { outcome := .success td, savedBus := some bus, oracleCalls := 0 } ∧
      td.nextStation = none ∧ td.eta = none ∧ td.distanceToNext = none := by
  have hnext : nextStationId bus = none := by
    rcases h with h | h | ⟨r, hr, h⟩
    · exact nextStationId_of_neg bus (currentStationIndex_of_no_stop bus h)
    · exact nextStationId_of_neg bus h
    · exact nextStationId_of_last bus r hr h
  simp only [updateBusLocation, hnext]
  exact ⟨_, rfl, rfl, rfl, rfl⟩

/-- C3 witness: busAtLastStop sits at the last stop of its route; the update
succeeds with all three estimate fields null and zero oracle calls. -/
theorem terminalOrUnknownStop_witness :
    (busAtLastStop.currentStationId = none ∨ currentStationIndex busAtLastStop = -1 ∨
      ∃ r, busAtLastStop.route = some r ∧
        currentStationIndex busAtLastStop = (r.stations.length : Int) - 1) ∧
    ∃ td, updateBusLocation 7 (some busAtLastStop) stationDbA reqOk oracleOk 100 =
        { outcome := .success td, savedBus := some busAtLastStop, oracleCalls := 0 } ∧
      td.nextStation = none ∧ td.eta = none ∧ td.distanceToNext = none :=
  ⟨Or.inr (Or.inr ⟨{ stations := [1, 2, 3], estimatedTime := 15 }, rfl, by decide⟩),
   terminalOrUnknownStop 7 busAtLastStop stationDbA reqOk oracleOk 100
     (Or.inr (Or.inr ⟨{ stations := [1, 2, 3], estimatedTime := 15 }, rfl, by decide⟩))⟩

/-- C6: when a next station resolves and both oracle calls succeed with
duration d seconds and distance m meters, the snapshot carries
eta = round (d / 60) minutes and distanceToNext = round m. -/
theorem oracleSuccessSnapshot (busId : Nat) (bus : Bus)
    (stationDb : Nat → Option Station) (req : LocationReq) (oracle : Oracle)
    (now : Int) (nsid : Nat) (stationDoc : Station) (loc : GeoPoint) (d m : ℚ)
    (hnext : nextStationId bus = some nsid)
    (hst : stationDb nsid = some stationDoc)
    (hloc : stationDoc.location = some loc)
    (heta : oracle.calculateETA = .success d)
    (hdist : oracle.calculateDistance = .success m) :
    ∃ td, (updateBusLocation busId (some bus) stationDb req oracle now).outcome =
        .success td ∧
      td.eta = some (jsRound (d / 60)) ∧
      td.distanceToNext = some (jsRound m) ∧
      td.nextStation = some nsid := by
  simp only [updateBusLocation, hnext, hst, hloc, heta, hdist]
  exact ⟨_, rfl, rfl, rfl, rfl⟩

/-- C6 witness: busMidRoute heading to station 3, oracle duration 300 s and
distance 1500 m, gives eta 5 minutes and distanceToNext 1500. -/
theorem oracleSuccessSnapshot_witness :
    nextStationId busMidRoute = some 3 ∧
    oracleOk.calculateETA = .success 300 ∧ oracleOk.calculateDistance = .success 1500 ∧
    ∃ td, (updateBusLocation 7 (some busMidRoute) stationDbA reqOk oracleOk 100).outcome =
        .success td ∧
      td.eta = some 5 ∧ td.distanceToNext = some 1500 ∧ td.nextStation = some 3 := by
  refine ⟨by decide, rfl, rfl, ?_⟩
  obtain ⟨td, h1, h2, h3, h4⟩ :=
    oracleSuccessSnapshot 7 busMidRoute stationDbA reqOk oracleOk 100 3
      { sid := 3, location := some { coord0 := 2, coord1 := 0 } }
      { coord0 := 2, coord1 := 0 } 300 1500 (by decide) (by decide) rfl rfl rfl
  refine ⟨td, h1, ?_, ?_, h4⟩
  · rw [h2]
    norm_num [jsRound, Rat.floor_def']
  · rw [h3]
    norm_num [jsRound, Rat.floor_def']

/-- C1 counterexample: with a next station resolved and the duration query
failing while the distance query succeeds with 1500 m, updateBusLocation
returns the failure outcome (the 400 catch branch) with nothing saved —
not the success outcome with eta null and distanceToNext 1500 that the
claim predicts. -/
theorem oracleFailureAborts_cex :
    updateBusLocation 7 (some busMidRoute) stationDbA reqOk oracleEtaDown 100 =
        { outcome := .failed, savedBus := some busMidRoute, oracleCalls := 2 } ∧
      (updateBusLocation 7 (some busMidRoute) stationDbA reqOk oracleEtaDown 100).outcome ≠
        .success
          { busId := 7, locationLat := reqOk.lat, locationLng := reqOk.lng,
            speed := reqOk.speed, heading := reqOk.heading,
            status := busMidRoute.status,
            currentStation := busMidRoute.currentStationId,
            nextStation := some 3, eta := none, distanceToNext := some 1500 } :=
  ⟨rfl, by decide⟩

/-- C1 (amended): when a next station resolves and either oracle query
fails, the awaited pair rejects and the whole operation lands in the catch
branch: the failure outcome is returned, the bus record is not updated,
and both oracle calls were issued.  Null snapshot fields never coexist
with a populated one out of an oracle failure. -/
theorem oracleFailureAborts (busId : Nat) (bus : Bus)
    (stationDb : Nat → Option Station) (req : LocationReq) (oracle : Oracle)
    (now : Int) (nsid : Nat) (stationDoc : Station) (loc : GeoPoint)
    (hnext : nextStationId bus = some nsid)
    (hst : stationDb nsid = some stationDoc)
    (hloc : stationDoc.location = some loc)
    (hfail : oracle.calculateETA = .failure ∨ oracle.calculateDistance = .failure) :
    updateBusLocation busId (some bus) stationDb req oracle now =
      { outcome := .failed, savedBus := some bus, oracleCalls := 2 } := by
  simp only [updateBusLocation, hnext, hst, hloc]
  rcases hfail with h | h
  · rw [h]
  · cases he : oracle.calculateETA with
    | success e => rw [h]
    | failure => rfl

/-- C1 witness: busMidRoute with the duration query down hits the failure
branch with two oracle calls issued and the bus unchanged. -/
theorem oracleFailureAborts_witness :
    nextStationId busMidRoute = some 3 ∧
    oracleEtaDown.calculateETA = .failure ∧
    updateBusLocation 7 (some busMidRoute) stationDbA reqOk oracleEtaDown 100 =
      { outcome := .failed, savedBus := some busMidRoute, oracleCalls := 2 } :=
  ⟨rfl, rfl,
   oracleFailureAborts 7 busMidRoute stationDbA reqOk oracleEtaDown 100 3
     { sid := 3, location := some { coord0 := 2, coord1 := 0 } }
     { coord0 := 2, coord1 := 0 } rfl rfl rfl (Or.inl rfl)⟩

/-- C2 counterexample: at the end of the route the operation succeeds, yet
the persisted bus is exactly the old record: lastUpdateTime stays 5
although now is 10, and currentLocation stays (0, 0) although the report
says lat 1, lng 2 — the claim's update of currentLocation and
lastUpdateTime on every successful pass fails here. -/
theorem applyTerminalNoPersist_cex :
    updateBusLocation 7 (some busAtLastStop) stationDbA reqOk oracleOk 10 =
        { outcome := .success
            { busId := 7, locationLat := reqOk.lat, locationLng := reqOk.lng,
              speed := reqOk.speed, heading := reqOk.heading,
              status := busAtLastStop.status,
              currentStation := busAtLastStop.currentStationId,
              nextStation := none, eta := none, distanceToNext := none },
          savedBus := some busAtLastStop, oracleCalls := 0 } ∧
      busAtLastStop.lastUpdateTime = 5 ∧ (5 : Int) ≠ (10 : Int) ∧
      busAtLastStop.currentLocation.coord1 = 0 ∧ reqOk.lat = 1 ∧ (0 : ℚ) ≠ 1 :=
  ⟨rfl, rfl, by decide, rfl, rfl, by norm_num⟩

/-- C2 (amended): on the pass that persists — next station resolved with a
location and both oracle queries successful — the saved record carries
currentLocation = [lng, lat] of the report and lastUpdateTime = now, so
with now at least the previous value the timestamp is set and never
regresses.  On the terminal and unknown-stop passes the operation
succeeds without persisting anything. -/
theorem applyPersistsOnOracleSuccess (busId : Nat) (bus : Bus)
    (stationDb : Nat → Option Station) (req : LocationReq) (oracle : Oracle)
    (now : Int) (nsid : Nat) (stationDoc : Station) (loc : GeoPoint) (d m : ℚ)
    (hnext : nextStationId bus = some nsid)
    (hst : stationDb nsid = some stationDoc)
    (hloc : stationDoc.location = some loc)
    (heta : oracle.calculateETA = .success d)
    (hdist : oracle.calculateDistance = .success m)
    (hmono : bus.lastUpdateTime ≤ now) :
    ∃ b, (updateBusLocation busId (some bus) stationDb req oracle now).savedBus = some b ∧
      b.currentLocation = { coord0 := req.lng, coord1 := req.lat } ∧
      b.lastUpdateTime = now ∧
      bus.lastUpdateTime ≤ b.lastUpdateTime := by
  simp only [updateBusLocation, hnext, hst, hloc, heta, hdist]
  exact ⟨_, rfl, rfl, rfl, hmono⟩

/-- C2 witness: busMidRoute at now = 100 (after its previous 5) is saved
with the reported position [2, 1] and timestamp 100. -/
theorem applyPersistsOnOracleSuccess_witness :
    busMidRoute.lastUpdateTime ≤ 100 ∧
    ∃ b, (updateBusLocation 7 (some busMidRoute) stationDbA reqOk oracleOk 100).savedBus =
        some b ∧
      b.currentLocation = { coord0 := reqOk.lng, coord1 := reqOk.lat } ∧
      b.lastUpdateTime = 100 ∧
      busMidRoute.lastUpdateTime ≤ b.lastUpdateTime :=
  ⟨by decide,
   applyPersistsOnOracleSuccess 7 busMidRoute stationDbA reqOk oracleOk 100 3
     { sid := 3, location := some { coord0 := 2, coord1 := 0 } }
     { coord0 := 2, coord1 := 0 } 300 1500 rfl rfl rfl rfl rfl (by decide)⟩

/-- C7 counterexample: a report with lat 1000, lng 2000 (far out of range)
is processed like any other: both oracle calls are issued and the
operation neither fails nor rejects — there is no validation step at
all, against the claim of a fail-fast validation error before any oracle
call. -/
theorem noCoordinateValidation_cex :
    reqBad.lat = 1000 ∧ ((1000 : ℚ) > 90) ∧
    (updateBusLocation 7 (some busMidRoute) stationDbA reqBad oracleOk 100).oracleCalls = 2 ∧
    (updateBusLocation 7 (some busMidRoute) stationDbA reqBad oracleOk 100).outcome ≠
      .failed ∧
    (updateBusLocation 7 (some busMidRoute) stationDbA reqBad oracleOk 100).outcome ≠
      .notFound :=
  ⟨rfl, by norm_num, rfl, by decide, by decide⟩

/-- C7 (amended): updateBusLocation performs no coordinate-range check: a
report whose coordinates are out of the valid latitude/longitude range
proceeds exactly like a valid one — the oracle calls are issued and, on
their success, the raw out-of-range coordinates are persisted as
[lng, lat]. -/
theorem noCoordinateValidation (busId : Nat) (bus : Bus)
    (stationDb : Nat → Option Station) (req : LocationReq) (oracle : Oracle)
    (now : Int) (nsid : Nat) (stationDoc : Station) (loc : GeoPoint) (d m : ℚ)
    (_hbad : req.lat > 90 ∨ req.lat < -90 ∨ req.lng > 180 ∨ req.lng < -180)
    (hnext : nextStationId bus = some nsid)
    (hst : stationDb nsid = some stationDoc)
    (hloc : stationDoc.location = some loc)
    (heta : oracle.calculateETA = .success d)
    (hdist : oracle.calculateDistance = .success m) :
    ∃ td b, updateBusLocation busId (some bus) stationDb req oracle now =
        { outcome := .success td, savedBus := some b, oracleCalls := 2 } ∧
      b.currentLocation = { coord0 := req.lng, coord1 := req.lat } := by
  simp only [updateBusLocation, hnext, hst, hloc, heta, hdist]
  exact ⟨_, _, rfl, rfl⟩

/-- C7 witness: the out-of-range report reqBad goes through with two oracle
calls and its coordinates stored unchanged. -/
theorem noCoordinateValidation_witness :
    reqBad.lat > 90 ∧
    ∃ td b, updateBusLocation 7 (some busMidRoute) stationDbA reqBad oracleOk 100 =
        { outcome := .success td, savedBus := some b, oracleCalls := 2 } ∧
      b.currentLocation = { coord0 := reqBad.lng, coord1 := reqBad.lat } :=
  ⟨by norm_num [reqBad],
   noCoordinateValidation 7 busMidRoute stationDbA reqBad oracleOk 100 3
     { sid := 3, location := some { coord0 := 2, coord1 := 0 } }
     { coord0 := 2, coord1 := 0 } 300 1500 (Or.inl (by norm_num [reqBad]))
     rfl rfl rfl rfl rfl⟩

/-- C9: the persisting pass stores the reported position {lat, lng} as the
GeoJSON pair [lng, lat], and both read paths (the getBusTrackingInfo
currentLocation object and the getBusLocations entry) reconstruct
lat = coordinates[1] and lng = coordinates[0], so the position read back
equals the position reported. -/
theorem coordinateRoundTrip (busId : Nat) (bus : Bus)
    (stationDb : Nat → Option Station) (req : LocationReq) (oracle : Oracle)
    (now : Int) (nsid : Nat) (stationDoc : Station) (loc : GeoPoint) (d m : ℚ)
    (hnext : nextStationId bus = some nsid)
    (hst : stationDb nsid = some stationDoc)
    (hloc : stationDoc.location = some loc)
    (heta : oracle.calculateETA = .success d)
    (hdist : oracle.calculateDistance = .success m) :
    ∃ b, (updateBusLocation busId (some bus) stationDb req oracle now).savedBus = some b ∧
      b.currentLocation = { coord0 := req.lng, coord1 := req.lat } ∧
      getBusTrackingInfoLocation b = (req.lat, req.lng) ∧
      (busLocationEntry b).locationLat = req.lat ∧
      (busLocationEntry b).locationLng = req.lng := by
  simp only [updateBusLocation, hnext, hst, hloc, heta, hdist]
  exact ⟨_, rfl, rfl, rfl, rfl, rfl⟩

/-- C9 witness: the reported (lat 1, lng 2) is stored as [2, 1] and both
read paths give back lat 1, lng 2. -/
theorem coordinateRoundTrip_witness :
    nextStationId busMidRoute = some 3 ∧
    ∃ b, (updateBusLocation 7 (some busMidRoute) stationDbA reqOk oracleOk 100).savedBus =
        some b ∧
      b.currentLocation = { coord0 := reqOk.lng, coord1 := reqOk.lat } ∧
      getBusTrackingInfoLocation b = (reqOk.lat, reqOk.lng) ∧
      (busLocationEntry b).locationLat = reqOk.lat ∧
      (busLocationEntry b).locationLng = reqOk.lng :=
  ⟨rfl,
   coordinateRoundTrip 7 busMidRoute stationDbA reqOk oracleOk 100 3
     { sid := 3, location := some { coord0 := 2, coord1 := 0 } }
     { coord0 := 2, coord1 := 0 } 300 1500 rfl rfl rfl rfl rfl⟩

end BusTracking
